import Mathlib

/-!
Shallow embedding of the core of the almirah repository: the Specification
engine (`almirah/specification.py` and its legacy variant
`napi/data/standard.py`), the tag-query engine (`almirah/layout.py`), the
layout file-addition check (`Layout.add`), and the identity cache
(`almirah/core/uniquify.py`).

Python strings are modelled as lists of characters (`Str`), Python dicts with
string keys and values as insertion-ordered association lists with unique keys
(`Tags`).  Python `re` calls on the two fixed internal regexes
(`_TAG_PATTERN_TEMPLATE`, the optional-segment regex and the brace regex) are
embedded as deterministic scanners that implement exactly those patterns; the
caller-supplied per-tag extraction regexes of `extract_tags` are modelled as
matcher functions `Str -> List Str` standing for `re.findall(pattern, path)`.
A raised Python exception is modelled as `Except.error`.
-/

namespace Almirah

/-- Python strings, modelled as lists of characters. -/
abbrev Str := List Char

/-- Shorthand turning a Lean string literal into the character-list model. -/
def cs (s : String) : Str := s.toList

/-- Python dicts with string keys and string values, in insertion order. -/
abbrev Tags := List (Str × Str)

/-- Dict lookup (`d[k]` / `d.get(k)`): first binding wins; keys are unique by
construction. -/
def lookupT (k : Str) : Tags → Option Str
  | [] => none
  | (k0, v) :: rest => if k0 = k then some v else lookupT k rest

/-- Python `k in d`. -/
def containsKey (t : Tags) (k : Str) : Bool := (lookupT k t).isSome

/-- Python `d[k] = v`: replace the existing binding in place, else append. -/
def setT : Tags → Str → Str → Tags
  | [], k, v => [(k, v)]
  | (k0, v0) :: rest, k, v =>
    if k0 = k then (k0, v) :: rest else (k0, v0) :: setT rest k v

/-- Keys of a dict, in insertion order (`d.keys()`). -/
def keysT (t : Tags) : List Str := t.map (fun kv => kv.1)

/-- Python truthiness of a string value: non-empty strings are truthy.  Tag
values in this code base are strings, so `if v or v == 0` keeps exactly the
non-empty values. -/
def pyTruthy (s : Str) : Bool := !s.isEmpty

/-- Python `s.startswith(pre)`. -/
def pyStartswith : Str → Str → Bool
  | _, [] => true
  | [], _ :: _ => false
  | c :: s, p :: ps => decide (c = p) && pyStartswith s ps

/-- Membership of a string in a list of strings (Python `x in l`). -/
def memS (x : Str) (l : List Str) : Bool := decide (x ∈ l)

/-- Python `s.replace(target, repl)` for a non-empty `target`: replace every
occurrence, scanning left to right, non-overlapping. -/
def replaceAllAux : Nat → Str → Str → Str → Str
  | 0, s, _, _ => s
  | _ + 1, [], _, _ => []
  | fuel + 1, c :: s, target, repl =>
    if pyStartswith (c :: s) target then
      repl ++ replaceAllAux fuel ((c :: s).drop target.length) target repl
    else
      c :: replaceAllAux fuel s target repl

/-- Python `s.replace(target, repl)` (the `target`s used by the source are the
non-empty raw token and bracket substrings). -/
def replaceAll (s target repl : Str) : Str := replaceAllAux s.length s target repl

/-- Python `s.split("|")`; in particular `"".split("|") == [""]`. -/
def splitPipe : Str → List Str
  | [] => [[]]
  | c :: rest =>
    let r := splitPipe rest
    if c = '|' then [] :: r
    else
      match r with
      | h :: t => (c :: h) :: t
      | [] => [[c]]

/-- Character class `[\w\d]` / `\w` of the token regex (ASCII reading). -/
def isWordChar (c : Char) : Bool := c.isAlphanum || c = '_'

/-- Greedy parse of the default-value group `((?:\.?[\w])+)` of the token
regex: a sequence of units, each an optional dot followed by a word
character. -/
def parseDefaultAux : Nat → Str → Str × Str
  | 0, s => ([], s)
  | fuel + 1, s =>
    match s with
    | [] => ([], [])
    | c :: rest =>
      if isWordChar c then
        let (d, r) := parseDefaultAux fuel rest
        (c :: d, r)
      else if c = '.' then
        match rest with
        | c2 :: rest2 =>
          if isWordChar c2 then
            let (d, r) := parseDefaultAux fuel rest2
            (c :: c2 :: d, r)
          else ([], s)
        | [] => ([], s)
      else ([], s)

/-- Default-value group parser; fails when no unit can be consumed (the regex
group requires at least one). -/
def parseDefault (s : Str) : Option (Str × Str) :=
  let (d, r) := parseDefaultAux s.length s
  if d.isEmpty then none else some (d, r)

/-- Parse of one tag token body after an opening `{`, per the source regex
`({([\w\d]*?)(?:<([^>]+)>)?(?:\|((?:\.?[\w])+))?\})`.  The lazy name group is
forced to the maximal run of word characters because the three possible
follow-up characters are not word characters.  Returns
`(rawToken, name, validValues, default, rest)`; unmatched groups are the
empty string, exactly as `re.findall` reports them. -/
def parseTokenBody (s : Str) : Option (Str × Str × Str × Str × Str) :=
  let name := s.takeWhile isWordChar
  let s1 := s.dropWhile isWordChar
  let afterValid : Str → Str → Option (Str × Str × Str × Str × Str) := fun content s2 =>
    match s2 with
    | '|' :: t =>
      match parseDefault t with
      | some (d, r) =>
        match r with
        | '}' :: r2 =>
          some ('{' :: name ++
                  (if content.isEmpty then [] else '<' :: content ++ ['>']) ++
                  '|' :: d ++ ['}'],
                name, content, d, r2)
        | _ => none
      | none => none
    | '}' :: r2 =>
      some ('{' :: name ++
              (if content.isEmpty then [] else '<' :: content ++ ['>']) ++ ['}'],
            name, content, [], r2)
    | _ => none
  match s1 with
  | '<' :: t =>
    let content := t.takeWhile (fun c => !(c = '>'))
    match t.dropWhile (fun c => !(c = '>')) with
    | '>' :: t2 => if content.isEmpty then none else afterValid content t2
    | _ => none
  | _ => afterValid [] s1

/-- One parsed token `(subpat, name, valid_vals, default)`, the shape of one
`_TAG_PATTERN_TEMPLATE.findall` result entry. -/
abbrev Token := Str × Str × Str × Str

/-- Scanner for `_TAG_PATTERN_TEMPLATE.findall(pattern)`: non-overlapping
left-to-right matches; a position where the token grammar fails is skipped. -/
def findTokensAux : Nat → Str → List Token
  | 0, _ => []
  | _ + 1, [] => []
  | fuel + 1, c :: rest =>
    if c = '{' then
      match parseTokenBody rest with
      | some (raw, name, valid, dflt, r) => (raw, name, valid, dflt) :: findTokensAux fuel r
      | none => findTokensAux fuel rest
    else findTokensAux fuel rest

/-- All tag tokens of a template, in order. -/
def findTokens (s : Str) : List Token := findTokensAux s.length s

/-- Scanner for `re.findall(r"(\[.*?\])", path)`: each match runs from a `[` to
the first following `]`, left to right, non-overlapping. -/
def findOptionalsAux : Nat → Str → List Str
  | 0, _ => []
  | _ + 1, [] => []
  | fuel + 1, c :: rest =>
    if c = '[' then
      let content := rest.takeWhile (fun x => !(x = ']'))
      match rest.dropWhile (fun x => !(x = ']')) with
      | ']' :: r => ('[' :: content ++ [']']) :: findOptionalsAux fuel r
      | _ => findOptionalsAux fuel rest
    else findOptionalsAux fuel rest

/-- All optional bracket segments of a path template. -/
def findOptionals (s : Str) : List Str := findOptionalsAux s.length s

/-- Scanner for `re.findall(r"\{(.*?)\}", op)[0]`: the content of the first
brace pair, `none` when there is none (in which case the source raises
`IndexError`). -/
def firstBraceContentAux : Nat → Str → Option Str
  | 0, _ => none
  | _ + 1, [] => none
  | fuel + 1, c :: rest =>
    if c = '{' then
      let content := rest.takeWhile (fun x => !(x = '}'))
      match rest.dropWhile (fun x => !(x = '}')) with
      | '}' :: _ => some content
      | _ => firstBraceContentAux fuel rest
    else firstBraceContentAux fuel rest

/-- Content of the first `{...}` group in a string. -/
def firstBraceContent (s : Str) : Option Str := firstBraceContentAux s.length s

/-- Field-name part of a replacement field: `string.Formatter` stops the field
name at a conversion (`!`) or format spec (`:`) marker. -/
def fieldName (fld : Str) : Str := fld.takeWhile (fun c => !(c = ':') && !(c = '!'))

/-- Scanner for `[f[1] for f in Formatter().parse(path)]`: the field name of
each replacement field in order, with `none` entries for literal-only chunks
(in particular for trailing literal text after the last field).  A lone brace
raises `ValueError` in Python, modelled as `Except.error`. -/
def parseFieldsAux : Nat → Str → Except Str (List (Option Str))
  | 0, _ => .error (cs "fuel exhausted")
  | _ + 1, [] => .ok []
  | fuel + 1, s =>
    let rest := s.dropWhile (fun c => !(c = '{') && !(c = '}'))
    match rest with
    | [] => .ok [none]
    | '{' :: '{' :: t => (parseFieldsAux fuel t).map (fun l => none :: l)
    | '}' :: '}' :: t => (parseFieldsAux fuel t).map (fun l => none :: l)
    | '{' :: t =>
      let fld := t.takeWhile (fun c => !(c = '}'))
      match t.dropWhile (fun c => !(c = '}')) with
      | '}' :: r => (parseFieldsAux fuel r).map (fun l => some (fieldName fld) :: l)
      | _ => .error (cs "Single brace encountered in format string")
    | _ => .error (cs "Single brace encountered in format string")

/-- Field names occurring in a simplified template. -/
def parseFields (s : Str) : Except Str (List (Option Str)) := parseFieldsAux (s.length + 1) s

/-- Substitution pass of `path.format_map(tags_copy)`: splice the value bound
to each field name.  The preceding field check of `build_path` guarantees that
every field is bound, so the `getD` default is unreachable there. -/
def formatFillAux : Nat → Str → Tags → Str
  | 0, s, _ => s
  | _ + 1, [], _ => []
  | fuel + 1, '{' :: '{' :: t, m => '{' :: formatFillAux fuel t m
  | fuel + 1, '}' :: '}' :: t, m => '}' :: formatFillAux fuel t m
  | fuel + 1, '{' :: t, m =>
    let fld := t.takeWhile (fun c => !(c = '}'))
    match t.dropWhile (fun c => !(c = '}')) with
    | '}' :: r => ((lookupT (fieldName fld) m).getD []) ++ formatFillAux fuel r m
    | _ => t
  | fuel + 1, c :: t, m => c :: formatFillAux fuel t m

/-- Python `path.format_map(tags_copy)`. -/
def formatFill (s : Str) (m : Tags) : Str := formatFillAux (s.length + 1) s m

/-- Details of a `Specification` (`self.details`): the tag definitions (name
plus compiled extraction pattern, standing for `re.findall(tag["pattern"], ·)`)
and the ordered path templates. -/
structure SpecDetails where
  tags : List (Str × (Str → List Str))
  path_patterns : List Str

/-- Step 1 of `build_path`: `{k: v for k, v in tags.items() if v or v == 0}`
drops entries with falsy (empty-string) values. -/
def dropFalsy (t : Tags) : Tags := t.filter (fun kv => pyTruthy kv.2)

/-- Step 2 of `build_path`: an `extension` entry is made to start with a dot. -/
def normalizeExtension (t : Tags) : Tags :=
  match lookupT (cs "extension") t with
  | none => t
  | some e => setT t (cs "extension") (if pyStartswith e (cs ".") then e else '.' :: e)

/-- Token loop of `almirah` `Specification.build_path` (lines 88-101): for each
token, skip it (`continue`) when the supplied value is outside the valid list;
else fill a missing value from the default, raise `ValueError` on an
inconsistent default, and normalize the raw token text to `{name}`. -/
def processTokens : List Token → Str → Tags → Except Str (Str × Tags)
  | [], path, t => .ok (path, t)
  | (subpat, name, validVals, dflt) :: rest, path, t =>
    let valid := splitPipe validVals
    if !valid.isEmpty && containsKey t name && !(memS ((lookupT name t).getD []) valid) then
      processTokens rest path t
    else
      let t1 := if !(containsKey t name) && pyTruthy dflt then setT t name dflt else t
      if !valid.isEmpty && pyTruthy dflt && !(memS dflt valid) then
        .error (cs "Inconsistent default in pattern " ++ subpat)
      else
        processTokens rest (replaceAll path subpat ('{' :: name ++ ['}'])) t1

/-- Optional-segment loop of `build_path` (lines 103-111): the bracket segments
are found once on the simplified path; a segment whose (first-brace) tag is
present keeps its text without the brackets, otherwise the whole segment is
removed.  A segment without any brace raises `IndexError` (`[0]` on an empty
findall). -/
def applyOptionalsGo : List Str → Str → Tags → Except Str Str
  | [], p, _ => .ok p
  | op :: rest, p, t =>
    match firstBraceContent op with
    | none => .error (cs "IndexError: list index out of range")
    | some tagName =>
      let p1 := if containsKey t tagName then replaceAll p op ((op.drop 1).dropLast)
                else replaceAll p op []
      applyOptionalsGo rest p1 t

/-- Optional-segment pass of `build_path`. -/
def applyOptionals (p : Str) (t : Tags) : Except Str Str :=
  applyOptionalsGo (findOptionals p) p t

/-- Body of one iteration of the template loop of `almirah` `build_path`:
returns `none` when the template is skipped (strict mismatch or unresolved
field), `some path` when this template resolves. -/
def tryPattern (strict : Bool) (tags : Tags) (pattern : Str) : Except Str (Option Str) := do
  let toks := findTokens pattern
  if strict && (keysT tags).any (fun k => !(memS k (toks.map (fun m => m.2.1)))) then
    return none
  let r ← processTokens toks pattern tags
  let path ← applyOptionals r.1 r.2
  let fields ← parseFields path
  if fields.any (fun f => match f with | none => true | some n => !containsKey r.2 n) then
    return none
  return some (formatFill path r.2)

/-- Template loop of `almirah` `build_path`: first resolvable template wins. -/
def buildPathGo (strict : Bool) (tags : Tags) : List Str → Except Str (Option Str)
  | [] => .ok none
  | p :: ps => do
    match ← tryPattern strict tags p with
    | some r => return some r
    | none => buildPathGo strict tags ps

/-- Embedding of `almirah` `Specification.build_path(self, strict=True, **tags)`
(`almirah/specification.py` lines 44-125).  A raised `ValueError` (inconsistent
default) is `Except.error`; the Python return values `path` and `None` are
`.ok (some path)` and `.ok none`. -/
def build_path (d : SpecDetails) (strict : Bool) (tags : Tags) : Except Str (Option Str) :=
  buildPathGo strict (normalizeExtension (dropFalsy tags)) d.path_patterns

/-- Embedding of `Specification.extract_tags`: for each tag definition in
declared order, run its pattern against the path and keep the first match. -/
def extract_tags (d : SpecDetails) (path : Str) : Tags :=
  d.tags.foldl
    (fun t nm =>
      match nm.2 path with
      | [] => t
      | v :: _ => setT t nm.1 v)
    []

/-- Embedding of `almirah` `Specification.validate_path`: the extracted tags
are rebuilt with `self.build_path(**tags)`, whose `strict` parameter keeps its
default value `True`, and the result is compared with the path. -/
def validate_path (d : SpecDetails) (path : Str) : Except Str Bool := do
  let r ← build_path d true (extract_tags d path)
  return decide (r = some path)

/-- Token loop of the legacy `napi` `Specification.build_path`
(`napi/data/standard.py` lines 101-120): identical to the `almirah` loop except
that an inconsistent default emits a `warnings.warn` message (collected here)
and processing continues. -/
def napiProcessTokens : List Token → Str → Tags → List Str → Str × Tags × List Str
  | [], path, t, w => (path, t, w)
  | (subpat, name, validVals, dflt) :: rest, path, t, w =>
    let valid := splitPipe validVals
    if !valid.isEmpty && containsKey t name && !(memS ((lookupT name t).getD []) valid) then
      napiProcessTokens rest path t w
    else
      let t1 := if !(containsKey t name) && pyTruthy dflt then setT t name dflt else t
      let w1 :=
        if !valid.isEmpty && pyTruthy dflt && !(memS dflt valid) then
          w ++ [cs "Pattern " ++ subpat ++ cs " is inconsistent as it defines an invalid default value"]
        else w
      napiProcessTokens rest (replaceAll path subpat ('{' :: name ++ ['}'])) t1 w1

/-- Template loop of `napi` `build_path`: the tag-coverage check is always
performed (there is no `strict` parameter), warnings accumulate across
templates. -/
def napiBuildPathGo (tags : Tags) (w : List Str) : List Str → Except Str (Option Str × List Str)
  | [] => .ok (none, w)
  | p :: ps =>
    let toks := findTokens p
    if (keysT tags).any (fun k => !(memS k (toks.map (fun m => m.2.1)))) then
      napiBuildPathGo tags w ps
    else
      let r := napiProcessTokens toks p tags []
      let w1 := w ++ r.2.2
      match applyOptionals r.1 r.2.1 with
      | .error e => .error e
      | .ok path =>
        match parseFields path with
        | .error e => .error e
        | .ok fields =>
          if fields.any (fun f => match f with | none => true | some n => !containsKey r.2.1 n) then
            napiBuildPathGo tags w1 ps
          else
            .ok (some (formatFill path r.2.1), w1)

/-- Embedding of `napi` `Specification.build_path(self, tags)`
(`napi/data/standard.py` lines 61-144), additionally reporting the
`warnings.warn` messages it emitted. -/
def napi_build_path (path_patterns : List Str) (tags : Tags) : Except Str (Option Str × List Str) :=
  napiBuildPathGo (normalizeExtension (dropFalsy tags)) [] path_patterns

/-- Frame view of `napi` `build_path`: the function receives the caller's dict
by reference, but its first statement rebinds the local `tags` to a fresh
comprehension copy, and every later mutation (`tags["extension"] = ...`,
`tags_copy[name] = default`) targets that copy or a per-template
`tags.copy()`; the pair returned here is the call result together with the
caller's mapping after the call. -/
def napi_build_path_with_caller (path_patterns : List Str) (caller : Tags) :
    Except Str (Option Str × List Str) × Tags :=
  (napi_build_path path_patterns caller, caller)

/-- File entity of `almirah/layout.py`: a path, the root of its layout, and
its tag map (one value per tag name, the `markings` unique constraint). -/
structure FileM where
  path : Str
  root : Str
  tags : Tags
  deriving DecidableEq

/-- Condition list of `Layout.query` (line 164): a joined row `(name, value)`
satisfies the `or_` of `and_(Tag.name == n, Tag.value.in_(v))` conditions. -/
def rowSatisfies (filters : List (Str × List Str)) (name value : Str) : Bool :=
  filters.any (fun f => decide (f.1 = name) && memS value f.2)

/-- Joined `File-Marking-Tag` rows of one file that pass the `where` clause. -/
def matchingRows (f : FileM) (filters : List (Str × List Str)) : Tags :=
  f.tags.filter (fun r => rowSatisfies filters r.1 r.2)

/-- Embedding of `almirah` `Layout.query` (lines 152-173) over an explicit
file table: `select(File).join(Marking).join(Tag)` keeps only files with at
least one joined row passing the `where` clause (an inner join produces no
group otherwise), restricted to `File.root == self.root`, and the `having`
clause keeps the groups whose row count equals `len(filters)`.  The `filters`
argument is in the `listify` form: one entry per tag name, each with a list of
admissible values. -/
def query (db : List FileM) (root : Str) (filters : List (Str × List Str)) : List FileM :=
  db.filter (fun f =>
    decide (f.root = root) && !(matchingRows f filters).isEmpty &&
      decide ((matchingRows f filters).length = filters.length))

/-- Layout entity: a root directory and its file set. -/
structure LayoutM where
  root : Str
  files : List FileM
  deriving DecidableEq

/-- Embedding of `Layout.add` (`almirah/layout.py` lines 78-94): the guard
raises only when no file of the batch starts with the layout root; otherwise
the whole batch is appended to `self.files`. -/
def layoutAdd (l : LayoutM) (fs : List FileM) : Except Str LayoutM :=
  if !(fs.any (fun f => pyStartswith f.path l.root)) then
    .error (cs "Found file outside layout scope of " ++ l.root)
  else
    .ok { l with files := l.files ++ fs }

/-- Generic association lookup used by the identity-cache model. -/
def lookupKey {α β : Type} [DecidableEq α] : α → List (α × β) → Option β
  | _, [] => none
  | k, (k0, v) :: rest => if k0 = k then some v else lookupKey k rest

/-- State of the identity machinery: the `_unique_cache` dict of
`core/uniquify.py`, the persistent index reachable through `cls.get` /
`index.add`, and a counter allocating fresh object identities (Python
references). -/
structure UState where
  cache : List ((Str × List Str) × Nat)
  idx : List ((Str × List Str) × Nat)
  next : Nat
  deriving DecidableEq

/-- Embedding of `Base.get_identifiers`: `{a: kwargs.get(a, None) for a in
cls.__identifier_attrs__}`. -/
def getIdentifiers (attrs : List Str) (kwargs : Tags) : List (Str × Option Str) :=
  attrs.map (fun a => (a, lookupT a kwargs))

/-- Cache key of `unique`: `(cls, tuple(idens.values()))`. -/
def uniqueKey (cls : Str) (attrs : List Str) (kwargs : Tags) : Str × List Str :=
  (cls, (getIdentifiers attrs kwargs).map (fun p => p.2.getD []))

/-- Model of `index.add(obj)`: the persistent index gains the object unless an
entry with the same identity already exists (the session/unique constraints
make re-adding a no-op). -/
def addIdx (idx : List ((Str × List Str) × Nat)) (key : Str × List Str) (obj : Nat) :
    List ((Str × List Str) × Nat) :=
  if (lookupKey key idx).isSome then idx else idx ++ [(key, obj)]

/-- Embedding of `unique` (`almirah/core/uniquify.py` lines 47-72) for a class
named `cls` with identifier attributes `attrs`: incomplete identifiers raise
`TypeError`; otherwise a fresh object is constructed (`s.next`), `cls.get` may
replace it by the indexed instance (`obj = cls.get(...) or obj`), the
`_unique_cache` entry for the key wins when present (`if key in cache:
obj = cache[key]`) and is created otherwise (`else: cache[key] = obj`), and
`index.add(obj)` registers the returned object. -/
def unique (cls : Str) (attrs : List Str) (kwargs : Tags) (s : UState) :
    Except Str (Nat × UState) :=
  if !((((getIdentifiers attrs kwargs).filter (fun p => p.2.isNone)).isEmpty)) then
    .error (cs "__init__ missing required keyword-only arguments")
  else
    match lookupKey (uniqueKey cls attrs kwargs) s.cache with
    | some c =>
      .ok (c, { cache := s.cache, idx := addIdx s.idx (uniqueKey cls attrs kwargs) c,
                next := s.next + 1 })
    | none =>
      .ok ((lookupKey (uniqueKey cls attrs kwargs) s.idx).getD s.next,
        { cache := s.cache ++
            [(uniqueKey cls attrs kwargs, (lookupKey (uniqueKey cls attrs kwargs) s.idx).getD s.next)],
          idx := addIdx s.idx (uniqueKey cls attrs kwargs)
            ((lookupKey (uniqueKey cls attrs kwargs) s.idx).getD s.next),
          next := s.next + 1 })

/-- Substring test (`a in b` for Python strings), used to express the
`ses-` property of the optional-segment scenario. -/
def containsSubAux : Nat → Str → Str → Bool
  | 0, needle, s => pyStartswith s needle
  | fuel + 1, needle, s =>
    pyStartswith s needle ||
      match s with
      | [] => false
      | _ :: rest => containsSubAux fuel needle rest

/-- Python `needle in hay` on strings. -/
def containsSub (needle hay : Str) : Bool := containsSubAux hay.length needle hay

deriving instance DecidableEq for Except

/-- Model of `re.findall(pattern, s)` for the special case of a pattern that is
one capture group around a literal: every non-overlapping occurrence of the
literal, scanned left to right, reported as the group content.  This is the
behaviour of `re.findall` for the concrete patterns `(x)` and `(xy)` used by
the fixtures below. -/
def findallLitAux : Nat → Str → Str → List Str
  | 0, _, _ => []
  | _ + 1, _, [] => []
  | fuel + 1, lit, c :: rest =>
    if pyStartswith (c :: rest) lit then
      lit :: findallLitAux fuel lit ((c :: rest).drop lit.length)
    else findallLitAux fuel lit rest

/-- Occurrences of a literal pattern in a string (`re.findall` with the
literal wrapped in one group). -/
def findallLit (lit : Str) (s : Str) : List Str := findallLitAux s.length lit s

/-- Specification fixture for the validation round trip: tag `a` extracted by
pattern `(x)`, tag `b` by pattern `(xy)`, one template `{b}`. -/
def specRound : SpecDetails :=
  ⟨[(cs "a", findallLit (cs "x")), (cs "b", findallLit (cs "xy"))], [cs "{b}"]⟩

/-- Specification fixture with a single token carrying a valid-value list and
a default outside that list. -/
def specInconsistent : SpecDetails := ⟨[], [cs "{s<A|B>|C}"]⟩

/-- Specification fixture whose valid-value token sits inside an optional
bracket segment. -/
def specOptValid : SpecDetails := ⟨[], [cs "{t}[-{s<A|B>}]"]⟩

/-- Specification fixture whose valid-value token sits outside any optional
segment. -/
def specReqValid : SpecDetails := ⟨[], [cs "{t}-{s<A|B>}"]⟩

/-- Specification fixture of spec scenario 1: the subject/suffix/extension
template. -/
def specScenario : SpecDetails :=
  ⟨[], [cs "sub-{subject}/sub-{subject}_{suffix}.{extension}"]⟩

/-- Specification fixture with the optional session segment. -/
def specSession : SpecDetails := ⟨[], [cs "sub-{subject}[_ses-{session}]"]⟩

/-- Specification fixture used for the default-leak demonstration: the first
template fills a default for tag `a` and is then rejected, the second builds
from a fresh copy of the caller tags. -/
def specLeak : SpecDetails := ⟨[], [cs "{a<X|Y>|X}_{b}", cs "{c}[-{a}]"]⟩

/-- File fixture A of spec scenario 4 (`subject=01`, `task=rest`). -/
def fileA : FileM := ⟨cs "/r/A", cs "/r", [(cs "subject", cs "01"), (cs "task", cs "rest")]⟩

/-- File fixture B of spec scenario 4 (`subject=01`, `task=nback`). -/
def fileB : FileM := ⟨cs "/r/B", cs "/r", [(cs "subject", cs "01"), (cs "task", cs "nback")]⟩

/-- File fixture lying inside the layout root `/r`. -/
def fileIn : FileM := ⟨cs "/r/a", cs "/r", []⟩

/-- File fixture lying outside the layout root `/r`. -/
def fileOut : FileM := ⟨cs "/x/b", cs "/x", []⟩

/-- Lookup in an association list extended on the right with a fresh key finds
the new binding. -/
theorem lookupKey_append_single {α β : Type} [DecidableEq α] (l : List (α × β)) (k : α) (v : β)
    (h : lookupKey k l = none) : lookupKey k (l ++ [(k, v)]) = some v := by
  induction l with
  | nil => simp [lookupKey]
  | cons p rest ih =>
    rw [lookupKey] at h
    by_cases hk : p.1 = k
    · rw [if_pos hk] at h
      exact absurd h (by simp)
    · rw [if_neg hk] at h
      show lookupKey k ((p.1, p.2) :: (rest ++ [(k, v)])) = some v
      rw [lookupKey, if_neg hk]
      exact ih h

/-- Claim C1 (counterexample): on the fixture Specification, the non-strict
round trip rebuilds the path `xy` exactly, yet `validate_path "xy"` returns
`False`, because the internal `build_path` call keeps the default
`strict=True` and the extracted extra tag `a` makes the strict check reject
the template. -/
theorem validate_path_not_nonstrict_roundtrip :
    build_path specRound false (extract_tags specRound (cs "xy")) = .ok (some (cs "xy")) ∧
      validate_path specRound (cs "xy") = .ok false := by
  constructor
  · decide
  · decide

/-- Claim C2 (code evaluated at the failing input): a query with no predicates
returns no files at all, not the full file set, because the `having
count == 0` clause can never hold for a group produced by the inner join; a
query with genuine predicates still computes the AND intersection. -/
theorem query_empty_filters_returns_no_files :
    query [fileA, fileB] (cs "/r") [] = [] ∧
      query [fileA, fileB] (cs "/r") [(cs "subject", [cs "01"]), (cs "task", [cs "rest"])]
        = [fileA] := by
  constructor
  · decide
  · decide

/-- Claim C3 (counterexample): supplying two admissible values for the single
tag name `task` (the only way the keyword-argument API can express two
predicates with one name) returns both files, the union over the values, and
not the empty set. -/
theorem query_same_name_two_values_not_empty :
    query [fileA, fileB] (cs "/r") [(cs "task", [cs "rest", cs "nback"])] = [fileA, fileB] ∧
      ([fileA, fileB] : List FileM) ≠ [] := by
  constructor
  · decide
  · decide

/-- Claim C3 (amended): a multi-valued predicate on one tag name filters with
`Tag.value.in_`, so the result is the set of files whose value for that name
is any of the listed values. -/
theorem query_same_name_two_values_union :
    query [fileA, fileB] (cs "/r") [(cs "task", [cs "rest", cs "nback"])]
      = [fileA, fileB].filter
          (fun f => memS ((lookupT (cs "task") f.tags).getD []) [cs "rest", cs "nback"]) := by
  decide

/-- Claim C4 (counterexample): a token whose default `C` is outside its valid
list `A|B` makes the `almirah` `build_path` raise `ValueError` — the call is
aborted, no warning-and-continue happens. -/
theorem build_path_inconsistent_default_raises :
    build_path specInconsistent true []
      = .error (cs "Inconsistent default in pattern {s<A|B>|C}") := by
  decide

/-- Claim C4 (amended): the inconsistent default aborts the current
`almirah` `build_path` with a `ValueError`, while the legacy `napi` variant
only emits a warning and carries on, building the path with that default. -/
theorem inconsistent_default_raises_in_almirah_warns_in_napi :
    build_path specInconsistent true []
        = .error (cs "Inconsistent default in pattern {s<A|B>|C}") ∧
      napi_build_path specInconsistent.path_patterns []
        = .ok (some (cs "C"),
            [cs "Pattern {s<A|B>|C} is inconsistent as it defines an invalid default value"]) := by
  constructor
  · decide
  · decide

/-- Claim C5 (counterexample): with template `{t}[-{s<A|B>}]` and the supplied
value `C` outside the valid list of `s`, a path is still built from this very
template (`v`), because the offending token is only skipped and the optional
segment holding it is then dropped — the template is not rejected. -/
theorem invalid_value_optional_segment_still_builds :
    build_path specOptValid true [(cs "t", cs "v"), (cs "s", cs "C")] = .ok (some (cs "v")) ∧
      memS (cs "C") [cs "A", cs "B"] = false := by
  constructor
  · decide
  · decide

/-- Claim C5 (amended): an out-of-list value leaves its raw token
unsubstituted; outside optional brackets the unresolved field then rejects the
template, but inside an optional bracket segment the whole segment is removed
and the template still yields a path. -/
theorem invalid_value_token_skip_behavior :
    build_path specOptValid true [(cs "t", cs "v"), (cs "s", cs "C")] = .ok (some (cs "v")) ∧
      build_path specReqValid true [(cs "t", cs "v"), (cs "s", cs "C")] = .ok none := by
  constructor
  · decide
  · decide

/-- Claim C7 (counterexample): on the template
`sub-{subject}/sub-{subject}_{suffix}.{extension}` with `extension=nii.gz`,
the extension is normalized to `.nii.gz` and substituted after the template's
literal dot, so the built path carries a double dot and is not the claimed
string. -/
theorem scenario_build_double_dot_counterexample :
    build_path specScenario true
        [(cs "subject", cs "01"), (cs "suffix", cs "T1w"), (cs "extension", cs "nii.gz")]
      = .ok (some (cs "sub-01/sub-01_T1w..nii.gz")) ∧
      cs "sub-01/sub-01_T1w..nii.gz" ≠ cs "sub-01/sub-01_T1w.nii.gz" := by
  constructor
  · decide
  · decide

/-- Claim C7 (amended): with duplicate `{subject}` tokens each substituted and
the extension dot-normalized, the template builds
`sub-01/sub-01_T1w..nii.gz`, the template's own dot preceding the normalized
extension. -/
theorem scenario_build_returns_double_dot :
    build_path specScenario true
        [(cs "subject", cs "01"), (cs "suffix", cs "T1w"), (cs "extension", cs "nii.gz")]
      = .ok (some (cs "sub-01/sub-01_T1w..nii.gz")) := by
  decide

/-- Claim C9 (code evaluated at the failing input): a batch holding one file
inside the root and one outside passes the `not any(...)` guard, so the call
succeeds and the outside file enters `layout.files`, although the documented
contract is to fail when any file lies outside the root. -/
theorem layout_add_accepts_outside_file :
    layoutAdd ⟨cs "/r", []⟩ [fileIn, fileOut] = .ok ⟨cs "/r", [fileIn, fileOut]⟩ ∧
      pyStartswith fileOut.path (cs "/r") = false := by
  constructor
  · decide
  · decide

/-- Claim C10: the caller's tag mapping is unchanged by `build_path` (the
local `tags` is rebound to a comprehension copy before any mutation, and each
template works on its own `tags.copy()`), and a default filled while trying a
rejected first template does not leak into the next template — the second
template here builds `1`, not `1-X`. -/
theorem build_path_preserves_caller_tags :
    (∀ (pats : List Str) (t : Tags), (napi_build_path_with_caller pats t).2 = t) ∧
      build_path specLeak false [(cs "c", cs "1")] = .ok (some (cs "1")) := by
  constructor
  · intro pats t
    rfl
  · decide


/-- Claim C1 (amended): `validate_path(path)` succeeds exactly when
`build_path` in its default strict mode rebuilds the extracted tags into the
path itself. -/
theorem validate_path_strict_roundtrip (d : SpecDetails) (p : Str) :
    validate_path d p = .ok true ↔
      build_path d true (extract_tags d p) = .ok (some p) := by
  unfold validate_path
  cases hb : build_path d true (extract_tags d p) with
  | error e => simp [hb, Bind.bind, Except.bind]
  | ok r => simp [hb, Bind.bind, Except.bind, pure, Except.pure]

/-- Claim C6: with the template `sub-{subject}[_ses-{session}]`, a resolved
tag set without `session` yields `sub-` followed by the subject value — the
whole bracket segment, including the `_ses-` text, is removed — while a tag
set with `session` yields the segment text with only its brackets stripped. -/
theorem optional_segment_removed_or_stripped (v w : Str) (hv : v ≠ []) (hw : w ≠ []) :
    build_path specSession true [(cs "subject", v)] = .ok (some (cs "sub-" ++ v)) ∧
      build_path specSession true [(cs "subject", v), (cs "session", w)]
        = .ok (some (cs "sub-" ++ v ++ cs "_ses-" ++ w)) := by
  cases v with
  | nil => exact absurd rfl hv
  | cons a v2 =>
    cases w with
    | nil => exact absurd rfl hw
    | cons b w2 =>
      constructor
      · have h : build_path specSession true [(cs "subject", a :: v2)]
            = .ok (some (cs "sub-" ++ ((a :: v2) ++ []))) := rfl
        simpa using h
      · have h : build_path specSession true [(cs "subject", a :: v2), (cs "session", b :: w2)]
            = .ok (some (cs "sub-" ++ ((a :: v2) ++ (cs "_ses-" ++ ((b :: w2) ++ []))))) := rfl
        simpa using h

/-- Claim C6 (witness): at `subject=01` the bracket segment is removed and the
built path `sub-01` does not contain the substring `ses-`; at
`subject=01, session=02` the path keeps the segment text `_ses-02`. -/
theorem optional_segment_removed_or_stripped_witness :
    build_path specSession true [(cs "subject", cs "01")] = .ok (some (cs "sub-" ++ cs "01")) ∧
      containsSub (cs "ses-") (cs "sub-01") = false := by
  constructor
  · exact (optional_segment_removed_or_stripped (cs "01") (cs "02") (by decide) (by decide)).1
  · decide

/-- Claim C8: two `unique` requests with the same class and the same complete
identity keyword arguments return the same instance — the second request
finds the cache entry left (or found) by the first and discards its freshly
constructed object. -/
theorem unique_returns_same_instance (cls : Str) (attrs : List Str) (kwargs : Tags)
    (s : UState) (o1 : Nat) (s1 : UState)
    (h : unique cls attrs kwargs s = .ok (o1, s1)) :
    ∃ s2, unique cls attrs kwargs s1 = .ok (o1, s2) := by
  unfold unique at h ⊢
  split at h
  next hcond => exact absurd h (by simp)
  next hcond =>
    rw [if_neg hcond]
    cases hcc : lookupKey (uniqueKey cls attrs kwargs) s.cache with
    | some c =>
      rw [hcc] at h
      injection h with h2
      rw [Prod.mk.injEq] at h2
      obtain ⟨h3, h4⟩ := h2
      subst h3
      subst h4
      simp only [hcc]
      exact ⟨_, rfl⟩
    | none =>
      rw [hcc] at h
      injection h with h2
      rw [Prod.mk.injEq] at h2
      obtain ⟨h3, h4⟩ := h2
      subst h3
      subst h4
      simp only [lookupKey_append_single _ _ _ hcc]
      exact ⟨_, rfl⟩

/-- Claim C8 (witness): requesting the Tag identity `(task, rest)` twice from
the empty state returns instance `0` both times. -/
theorem unique_returns_same_instance_witness :
    unique (cs "Tag") [cs "name", cs "value"]
        [(cs "name", cs "task"), (cs "value", cs "rest")] ⟨[], [], 0⟩
      = .ok (0, ⟨[((cs "Tag", [cs "task", cs "rest"]), 0)],
                 [((cs "Tag", [cs "task", cs "rest"]), 0)], 1⟩) ∧
      (∃ s2, unique (cs "Tag") [cs "name", cs "value"]
          [(cs "name", cs "task"), (cs "value", cs "rest")]
          ⟨[((cs "Tag", [cs "task", cs "rest"]), 0)],
           [((cs "Tag", [cs "task", cs "rest"]), 0)], 1⟩
        = .ok (0, s2)) := by
  constructor
  · decide
  · exact unique_returns_same_instance (cs "Tag") [cs "name", cs "value"]
      [(cs "name", cs "task"), (cs "value", cs "rest")] ⟨[], [], 0⟩ 0
      ⟨[((cs "Tag", [cs "task", cs "rest"]), 0)],
       [((cs "Tag", [cs "task", cs "rest"]), 0)], 1⟩ (by decide)

end Almirah
